import Mathlib

/-!
Shallow embedding of `src/examples/python-flask/app.py` (the `/analyze`
Flask handler of the sales-agent benchmark reference implementation) and
proofs about it.

JSON values are modelled by the inductive `Json`; Python dicts obtained
from JSON are association lists with unique keys (the JSON decoder below
implements Python's last-occurrence-wins duplicate-key semantics).
Python truthiness, `dict.get`, `x or y`, string iteration and the
handler's control flow are translated directly from the source.
-/

namespace SalesAgent

/-- A JSON value as produced by Python's `json.loads`: numbers are
modelled by `ℚ` (exact decimal arithmetic; `float` rounding is not
observable in any property below). -/
inductive Json where
  | null : Json
  | bool : Bool → Json
  | num : ℚ → Json
  | str : String → Json
  | arr : List Json → Json
  | obj : List (String × Json) → Json
  deriving Repr

/-- Python truthiness of a JSON-derived value: `None`, `False`, `0`,
`""`, `[]` and `{}` are falsy, everything else truthy. -/
def pyTruthy : Json → Bool
  | .null => false
  | .bool b => b
  | .num q => decide (q ≠ 0)
  | .str s => !s.isEmpty
  | .arr xs => !xs.isEmpty
  | .obj fs => !fs.isEmpty

/-- Python `a or b` on JSON-derived values: `a` when truthy, else `b`. -/
def pyOr (a b : Json) : Json := if pyTruthy a then a else b

/-- Lookup in a JSON-object field list (Python `dict` access; the decoder
keeps keys unique, so first match is the dict entry). -/
def lookupField : List (String × Json) → String → Option Json
  | [], _ => none
  | (k, v) :: fs, key => if k = key then some v else lookupField fs key

/-- Python `d.get(key, default)` on an object's field list. -/
def getD (fs : List (String × Json)) (key : String) (default : Json) : Json :=
  (lookupField fs key).getD default

/-- Python `d.get(key)` (default `None`) on an object's field list. -/
def getJ (fs : List (String × Json)) (key : String) : Json :=
  getD fs key .null

/-- Test that `d.get(key)` is truthy: the key is present with a Python-truthy value. -/
def truthyGet (fs : List (String × Json)) (key : String) : Bool :=
  pyTruthy (getJ fs key)

/-- JSON whitespace accepted by Python's decoder. -/
def isWsChar (c : Char) : Bool := c = ' ' || c = '\t' || c = '\n' || c = '\r'

/-- Drop leading JSON whitespace. -/
def skipWs : List Char → List Char
  | [] => []
  | c :: cs => if isWsChar c then skipWs cs else c :: cs

/-- Value of a hexadecimal digit, for `\uXXXX` escapes. -/
def hexDigitVal (c : Char) : Option Nat :=
  if '0' ≤ c ∧ c ≤ '9' then some (c.toNat - 48)
  else if 'a' ≤ c ∧ c ≤ 'f' then some (c.toNat - 87)
  else if 'A' ≤ c ∧ c ≤ 'F' then some (c.toNat - 55)
  else none

/-- Decode one backslash escape (the character after the backslash plus
the remaining input). `\uXXXX` consumes four hex digits; an invalid code
point maps through the default of `Char.ofNat`, a corner no claim touches. -/
def unescape : Char → List Char → Option (Char × List Char)
  | '"', rest => some ('"', rest)
  | '\\', rest => some ('\\', rest)
  | '/', rest => some ('/', rest)
  | 'b', rest => some (Char.ofNat 8, rest)
  | 'f', rest => some (Char.ofNat 12, rest)
  | 'n', rest => some ('\n', rest)
  | 'r', rest => some ('\r', rest)
  | 't', rest => some ('\t', rest)
  | 'u', rest =>
    match rest with
    | a :: b :: c :: d :: rest' =>
      match hexDigitVal a, hexDigitVal b, hexDigitVal c, hexDigitVal d with
      | some ha, some hb, some hc, some hd =>
        some (Char.ofNat (((ha * 16 + hb) * 16 + hc) * 16 + hd), rest')
      | _, _, _, _ => none
    | _ => none
  | _, _ => none

/-- Decode a JSON string body (input starts after the opening quote);
returns the decoded characters and the input after the closing quote.
Raw control characters are rejected as in Python's strict mode. -/
def parseStringBody : Nat → List Char → Option (List Char × List Char)
  | 0, _ => none
  | fuel + 1, cs =>
    match cs with
    | [] => none
    | '"' :: rest => some ([], rest)
    | '\\' :: rest =>
      match rest with
      | [] => none
      | e :: rest' =>
        match unescape e rest' with
        | none => none
        | some (c, rest2) =>
          match parseStringBody fuel rest2 with
          | none => none
          | some (s, r) => some (c :: s, r)
    | c :: rest =>
      if c.toNat < 32 then none
      else
        match parseStringBody fuel rest with
        | none => none
        | some (s, r) => some (c :: s, r)

/-- Numeric value of a run of decimal digits. -/
def digitsToNat (ds : List Char) : Nat :=
  ds.foldl (fun a c => 10 * a + (c.toNat - 48)) 0

/-- Exact value of a decoded JSON number with sign `neg`, mantissa `m`
(all digits), `k` fraction digits and exponent `e`: `±m · 10 ^ (e - k)`. -/
def decimalValue (neg : Bool) (m : Nat) (k : Nat) (e : ℤ) : ℚ :=
  let n : ℤ := if neg then -(m : ℤ) else (m : ℤ)
  match e - (k : ℤ) with
  | .ofNat d => mkRat (n * ((10 ^ d : ℕ) : ℤ)) 1
  | .negSucc d => mkRat n (10 ^ (d + 1))

/-- Integer part per Python's number grammar `0|[1-9]\d*`: a leading `0`
is not followed by more digits (the rest is left in the input, where the
surrounding grammar then rejects it, as Python does). -/
def parseIntPart : List Char → Option (List Char × List Char)
  | '0' :: rest => some (['0'], rest)
  | c :: rest =>
    if c.isDigit then some ((c :: rest).span Char.isDigit) else none
  | [] => none

/-- Optional fraction `(\.\d+)?`: consumed only when well-formed,
otherwise left in the input. Returns the fraction digits. -/
def parseFrac : List Char → List Char × List Char
  | '.' :: rest =>
    let (ds, r) := rest.span Char.isDigit
    if ds.isEmpty then ([], '.' :: rest) else (ds, r)
  | cs => ([], cs)

/-- Optional exponent `([eE][-+]?\d+)?`: consumed only when well-formed,
otherwise left in the input. Returns the signed exponent. -/
def parseExp : List Char → ℤ × List Char
  | c :: rest =>
    if c = 'e' ∨ c = 'E' then
      match rest with
      | '+' :: r2 =>
        let (ds, r3) := r2.span Char.isDigit
        if ds.isEmpty then (0, c :: rest) else ((digitsToNat ds : ℤ), r3)
      | '-' :: r2 =>
        let (ds, r3) := r2.span Char.isDigit
        if ds.isEmpty then (0, c :: rest) else (-(digitsToNat ds : ℤ), r3)
      | _ =>
        let (ds, r3) := rest.span Char.isDigit
        if ds.isEmpty then (0, c :: rest) else ((digitsToNat ds : ℤ), r3)
    else (0, c :: rest)
  | [] => (0, [])

/-- Parse a JSON number (maximal match of Python's number regex),
returning its exact rational value and the remaining input. -/
def parseNumber (cs : List Char) : Option (ℚ × List Char) :=
  let (neg, cs1) :=
    match cs with
    | '-' :: r => (true, r)
    | _ => (false, cs)
  match parseIntPart cs1 with
  | none => none
  | some (ip, r1) =>
    let (fd, r2) := parseFrac r1
    let (e, r3) := parseExp r2
    some (decimalValue neg (digitsToNat (ip ++ fd)) fd.length e, r3)

/-- Python dict insertion while decoding an object: an existing key keeps
its position and gets the new value (duplicate keys: last wins), a new
key is appended. -/
def objInsert : List (String × Json) → String → Json → List (String × Json)
  | [], k, v => [(k, v)]
  | (k', v') :: fs, k, v =>
    if k' = k then (k, v) :: fs else (k', v') :: objInsert fs k v

mutual

/-- Parse one JSON value (fuel-indexed recursive descent mirroring
Python's `json.loads` grammar), returning it and the remaining input. -/
def parseValue : Nat → List Char → Option (Json × List Char)
  | 0, _ => none
  | fuel + 1, cs =>
    match skipWs cs with
    | 'n' :: 'u' :: 'l' :: 'l' :: rest => some (.null, rest)
    | 't' :: 'r' :: 'u' :: 'e' :: rest => some (.bool true, rest)
    | 'f' :: 'a' :: 'l' :: 's' :: 'e' :: rest => some (.bool false, rest)
    | '"' :: rest =>
      match parseStringBody (rest.length + 1) rest with
      | none => none
      | some (s, r) => some (.str (String.mk s), r)
    | '[' :: rest =>
      match skipWs rest with
      | ']' :: r2 => some (.arr [], r2)
      | _ => parseArrayTail fuel rest []
    | '{' :: rest =>
      match skipWs rest with
      | '}' :: r2 => some (.obj [], r2)
      | _ => parseObjectTail fuel rest []
    | cs' =>
      match parseNumber cs' with
      | none => none
      | some (q, r) => some (.num q, r)

/-- Parse the elements of a non-empty JSON array (input after `[`). -/
def parseArrayTail : Nat → List Char → List Json → Option (Json × List Char)
  | 0, _, _ => none
  | fuel + 1, cs, acc =>
    match parseValue fuel cs with
    | none => none
    | some (v, rest) =>
      match skipWs rest with
      | ',' :: r2 => parseArrayTail fuel r2 (acc ++ [v])
      | ']' :: r2 => some (.arr (acc ++ [v]), r2)
      | _ => none

/-- Parse the members of a non-empty JSON object (input after `{`). -/
def parseObjectTail : Nat → List Char → List (String × Json) →
    Option (Json × List Char)
  | 0, _, _ => none
  | fuel + 1, cs, acc =>
    match skipWs cs with
    | '"' :: rest =>
      match parseStringBody (rest.length + 1) rest with
      | none => none
      | some (k, r1) =>
        match skipWs r1 with
        | ':' :: r2 =>
          match parseValue fuel r2 with
          | none => none
          | some (v, r3) =>
            match skipWs r3 with
            | ',' :: r4 => parseObjectTail fuel r4 (objInsert acc (String.mk k) v)
            | '}' :: r4 => some (.obj (objInsert acc (String.mk k) v), r4)
            | _ => none
        | _ => none
    | _ => none

end

/-- Python's `json.loads`: parse one JSON document and require only
whitespace after it. (Python's non-standard `NaN`/`Infinity` literals
are not modelled; no claim involves them.) -/
def json_loads (cs : List Char) : Option Json :=
  match parseValue (2 * cs.length + 4) cs with
  | some (v, rest) => if (skipWs rest).isEmpty then some v else none
  | none => none

/-- Index of the last occurrence of `c` in `cs`. -/
def lastIdxOf (cs : List Char) (c : Char) : Option Nat :=
  match cs.reverse.findIdx? (· = c) with
  | some k => some (cs.length - 1 - k)
  | none => none

/-- The search `re.search` for the object pattern (app.py line 84): a match exists
iff some `{` is followed by a later `}`; the greedy match runs from the
first `{` to the last `}`. -/
def json_match (cs : List Char) : Option (List Char) :=
  match cs.findIdx? (· = '{'), lastIdxOf cs '}' with
  | some i, some j => if i < j then some ((cs.take (j + 1)).drop i) else none
  | _, _ => none

/-- Model-output extraction (app.py lines 80–87): search for a JSON
object span and parse it; no match or a parse failure degrades to an
empty dict (`except (json.JSONDecodeError, AttributeError): parsed = {}`). -/
def extract_json (text : String) : Json :=
  match json_match text.toList with
  | none => .obj []
  | some span => (json_loads span).getD (.obj [])

/-- Python `p.get(key)` when `p` is the parsed value (always a dict on every
reachable path, since a successfully parsed span starts with `{`). -/
def jsonLookup : Json → String → Option Json
  | .obj fs, k => lookupField fs k
  | _, _ => none

/-- Python `p.get(key, default)` on the parsed value. -/
def jsonGetD (p : Json) (k : String) (d : Json) : Json :=
  (jsonLookup p k).getD d

/-- Response normalization (app.py lines 90–95); note the code asks for
`nextSteps` first and only falls back to `next_steps` (`0.5` is
`mkRat 1 2`). -/
def normalize (parsed : Json) : Json :=
  .obj
    [("risks", jsonGetD parsed "risks" (.arr [])),
     ("next_steps",
       jsonGetD parsed "nextSteps" (jsonGetD parsed "next_steps" (.arr []))),
     ("confidence", jsonGetD parsed "confidence" (.num (mkRat 1 2))),
     ("reasoning", jsonGetD parsed "reasoning" (.str "Unable to parse response"))]

/-- Exceptions arising on the translated code paths: an exception raised
by the completion-API client (carrying its message), Python's
`AttributeError` (`.get` on a non-dict), and `TypeError` (string
concatenation with a non-string, iterating a non-iterable). -/
inductive Exn where
  | apiError : String → Exn
  | attributeError : Exn
  | typeError : Exn
  deriving Repr

/-- Python iteration as used by the two generator expressions (app.py
lines 57 and 60): a list yields its elements, a string its characters, a
dict its keys; other values raise `TypeError`. -/
def pyIter : Json → Except Exn (List Json)
  | .arr xs => .ok xs
  | .str s => .ok (s.toList.map fun c => .str (String.singleton c))
  | .obj fs => .ok (fs.map fun kv => .str kv.1)
  | _ => .error .typeError

/-- The expression `"- " + p` (app.py line 57): string concatenation,
`TypeError` on a non-string item. -/
def bulletLine : Json → Except Exn String
  | .str p => .ok ("- " ++ p)
  | _ => .error .typeError

/-- The stakeholder bullet `"- " + s.get("name", "?") + " (" + s.get("role", "?") + ")"`
(app.py line 60): `AttributeError` if the stakeholder is not a dict,
`TypeError` if a looked-up field is not a string. -/
def stakeholderLine : Json → Except Exn String
  | .obj fs =>
    match getD fs "name" (.str "?"), getD fs "role" (.str "?") with
    | .str n, .str r => .ok ("- " ++ n ++ " (" ++ r ++ ")")
    | _, _ => .error .typeError
  | _ => .error .attributeError

/-- Python `str()` as applied by f-string interpolation. Exact for the
string values every claim exercises; the textual rendering of
non-string values is abstracted (no claim depends on it). -/
def pyStr : Json → String
  | .str s => s
  | .null => "None"
  | .bool true => "True"
  | .bool false => "False"
  | .num q => toString q.num ++ "/" ++ toString q.den
  | .arr _ => "<list>"
  | .obj _ => "<dict>"

/-- The selection `ctx.get("last_interaction") or ctx.get("lastInteraction", "N/A")`
(app.py line 54). -/
def selLastInteraction (fs : List (String × Json)) : Json :=
  pyOr (getJ fs "last_interaction") (getD fs "lastInteraction" (.str "N/A"))

/-- The selection `ctx.get("pain_points") or ctx.get("painPoints", [])`
(app.py line 57). -/
def selPainPoints (fs : List (String × Json)) : Json :=
  pyOr (getJ fs "pain_points") (getD fs "painPoints" (.arr []))

/-- The selection `body.get("deal_context") or body.get("dealContext")`
(app.py line 49). -/
def selDealContext (fs : List (String × Json)) : Json :=
  pyOr (getJ fs "deal_context") (getJ fs "dealContext")

/-- The prompt f-string (app.py lines 52–67), translated field by field;
`chr(10).join` is `String.intercalate "\n"`. `.get` on a non-dict
context raises `AttributeError`. -/
def buildPrompt (ctx : Json) (question : Json) : Except Exn String :=
  match ctx with
  | .obj fs => do
    let painItems ← pyIter (selPainPoints fs)
    let painLines ← painItems.mapM bulletLine
    let stakeItems ← pyIter (getD fs "stakeholders" (.arr []))
    let stakeLines ← stakeItems.mapM stakeholderLine
    .ok ("## Deal: " ++ pyStr (getD fs "company" (.str "Unknown")) ++
      "\nStage: " ++ pyStr (getD fs "stage" (.str "Unknown")) ++
      "\nLast Interaction: " ++ pyStr (selLastInteraction fs) ++
      "\n\nPain Points:\n" ++ String.intercalate "\n" painLines ++
      "\n\nStakeholders:\n" ++ String.intercalate "\n" stakeLines ++
      "\n\nHistory: " ++ pyStr (getD fs "history" (.str "N/A")) ++
      "\n\n---\nQuestion: " ++ pyStr question ++
      "\n\nAnalyze this deal and provide your assessment as JSON.")
  | _ => .error .attributeError

/-- An HTTP response: status code and JSON body. -/
structure HttpResponse where
  status : Nat
  body : Json
  deriving Repr

/-- Default question (app.py line 50). -/
def defaultQuestion : String :=
  "What are the top risks and recommended next steps?"

/-- The `/analyze` handler (app.py lines 38–95). The completion call's
outcome is a parameter: `.error msg` models an exception raised by the
API client (network/auth/rate-limit), `.ok content` a successful call
whose `choices[0].message.content` may be `None`. A handler result of
`.error e` is an exception escaping the handler (the framework turns it
into a generic 500 server error); `.ok r` is the response the handler
itself returns. A non-dict body raises `AttributeError` at `body.get`. -/
def analyze (body : Json) (call : Except String (Option String)) :
    Except Exn HttpResponse :=
  match body with
  | .obj bodyFs =>
    if !truthyGet bodyFs "checkpoint_id" && !truthyGet bodyFs "checkpointId" then
      .ok ⟨400, .obj [("error", .str "checkpoint_id is required")]⟩
    else if !truthyGet bodyFs "deal_context" && !truthyGet bodyFs "dealContext" then
      .ok ⟨400, .obj [("error", .str "deal_context is required")]⟩
    else
      match buildPrompt (selDealContext bodyFs)
          (getD bodyFs "question" (.str defaultQuestion)) with
      | .error e => .error e
      | .ok _prompt =>
        match call with
        | .error e => .error (.apiError e)
        | .ok content =>
          let text := content.getD ""
          .ok ⟨200, normalize (extract_json text)⟩
  | _ => .error .attributeError

/-- Keys of a JSON object, in order. -/
def topKeys : Json → List String
  | .obj fs => fs.map Prod.fst
  | _ => []

/-- Severity enum of the spec (section 3): high, medium or low. -/
def specSeverity (s : String) : Bool :=
  s = "high" || s = "medium" || s = "low"

/-- Shape of one risk entry as the spec words it (written from the spec
for refinement comparison, not from the code): a record with a string
description and an enum severity. -/
def specRiskShape : Json → Bool
  | .obj fs =>
    (match lookupField fs "description" with
     | some (.str _) => true
     | _ => false) &&
    (match lookupField fs "severity" with
     | some (.str s) => specSeverity s
     | _ => false)
  | _ => false

/-- Shape of one next-step entry as the spec words it (written from the
spec for refinement comparison): a string action, an integer priority
and a string rationale. -/
def specStepShape : Json → Bool
  | .obj fs =>
    (match lookupField fs "action" with
     | some (.str _) => true
     | _ => false) &&
    (match lookupField fs "priority" with
     | some (.num q) => q.den == 1
     | _ => false) &&
    (match lookupField fs "rationale" with
     | some (.str _) => true
     | _ => false)
  | _ => false

/-- Shape of `AnalysisResponse` as the spec words it (written from the
spec for refinement comparison, not from the code): risks an ordered
sequence of risk entries, next_steps an ordered sequence of step
entries, confidence a number, reasoning a string. -/
def specAnalysisResponseShape : Json → Bool
  | .obj fs =>
    (match lookupField fs "risks" with
     | some (.arr rs) => rs.all specRiskShape
     | _ => false) &&
    (match lookupField fs "next_steps" with
     | some (.arr ss) => ss.all specStepShape
     | _ => false) &&
    (match lookupField fs "confidence" with
     | some (.num _) => true
     | _ => false) &&
    (match lookupField fs "reasoning" with
     | some (.str _) => true
     | _ => false)
  | _ => false

/-- The valid request of the curl example in the source docstring
(app.py lines 13–15), used as a concrete witness input. -/
def demoFields : List (String × Json) :=
  [("checkpoint_id", .str "test-1"),
   ("deal_context", .obj
     [("company", .str "Acme Corp"),
      ("stage", .str "Discovery"),
      ("last_interaction", .str "Demo call last week"),
      ("pain_points", .arr [.str "Manual processes"]),
      ("stakeholders", .arr
        [.obj [("name", .str "Jane"), ("role", .str "champion")]]),
      ("history", .str "Initial outreach")]),
   ("question", .str "What are the top risks?")]

/-- The completion output of spec section 8 property 4: a prose prefix,
a json code fence, and an object using the camelCase `nextSteps` key. -/
def fencedOutput : String :=
  "Here you go:\n```json\n\x7b\"risks\":[\x7b\"description\":\"Budget cut\",\"severity\":\"high\"\x7d],\"nextSteps\":[\x7b\"action\":\"Call CFO\",\"priority\":1,\"rationale\":\"Confirm budget\"\x7d],\"confidence\":0.8,\"reasoning\":\"Budget risk.\"\x7d\n```"

/-- String concatenation is associative (used to exhibit substrings of
the rendered prompt). -/
theorem string_append_assoc (a b c : String) : a ++ b ++ c = a ++ (b ++ c) := by
  cases a with
  | mk la =>
    cases b with
    | mk lb =>
      cases c with
      | mk lc => exact congrArg String.mk (List.append_assoc la lb lc)

/-- A key that is absent reads as `None`, which is falsy. -/
theorem truthyGet_of_not_present (fs : List (String × Json)) (k : String)
    (h : lookupField fs k = none) : truthyGet fs k = false := by
  simp [truthyGet, getJ, getD, h, pyTruthy]

/-- Success path of the handler: when both validations pass, the prompt
builds without exception, and the completion call returns, the handler
answers 200 with the normalized extraction of the returned text. -/
theorem analyze_ok_path (bodyFs : List (String × Json)) (content : Option String)
    (h1 : truthyGet bodyFs "checkpoint_id" = true ∨
      truthyGet bodyFs "checkpointId" = true)
    (h2 : truthyGet bodyFs "deal_context" = true ∨
      truthyGet bodyFs "dealContext" = true)
    (hp : ∃ p, buildPrompt (selDealContext bodyFs)
      (getD bodyFs "question" (.str defaultQuestion)) = .ok p) :
    analyze (.obj bodyFs) (.ok content) =
      .ok ⟨200, normalize (extract_json (content.getD ""))⟩ := by
  obtain ⟨p, hp⟩ := hp
  have e1 : (!truthyGet bodyFs "checkpoint_id" &&
      !truthyGet bodyFs "checkpointId") = false := by
    rcases h1 with h | h <;> simp [h]
  have e2 : (!truthyGet bodyFs "deal_context" &&
      !truthyGet bodyFs "dealContext") = false := by
    rcases h2 with h | h <;> simp [h]
  simp [analyze, e1, e2, hp]

/-- Reading back the risks field of a normalized response. -/
theorem normalize_risks (p : Json) :
    jsonLookup (normalize p) "risks" = some (jsonGetD p "risks" (.arr [])) := rfl

/-- Reading back the next_steps field of a normalized response: the
code consults `nextSteps` first and only then `next_steps`. -/
theorem normalize_next_steps (p : Json) :
    jsonLookup (normalize p) "next_steps" =
      some (jsonGetD p "nextSteps" (jsonGetD p "next_steps" (.arr []))) := rfl

/-- A normalized response is an object with exactly the four
`AnalysisResponse` keys, in order. -/
theorem topKeys_normalize (p : Json) :
    topKeys (normalize p) = ["risks", "next_steps", "confidence", "reasoning"] :=
  rfl

/-- C4: for every request body (a JSON object) in which neither
`checkpoint_id` nor `checkpointId` is present with a non-empty
(Python-truthy) value, the handler returns 400 with body exactly
the checkpoint_id error, regardless of any other fields present; the
conclusion holds for every completion-call outcome `call`, so the
response is produced without consulting the completion API. -/
theorem C4_missing_checkpoint (bodyFs : List (String × Json))
    (call : Except String (Option String))
    (h1 : truthyGet bodyFs "checkpoint_id" = false)
    (h2 : truthyGet bodyFs "checkpointId" = false) :
    analyze (.obj bodyFs) call =
      .ok ⟨400, .obj [("error", .str "checkpoint_id is required")]⟩ := by
  simp [analyze, h1, h2]

/-- Witness for C4: a body with only a deal context is rejected even
though the completion call would have failed. -/
theorem C4_missing_checkpoint_witness :
    analyze (.obj [("dealContext", .obj [("company", .str "Acme")])])
        (.error "network down") =
      .ok ⟨400, .obj [("error", .str "checkpoint_id is required")]⟩ :=
  C4_missing_checkpoint _ _ rfl rfl

/-- C5: for every request body with a valid (truthy) checkpoint id in
which neither `deal_context` nor `dealContext` is present, the handler
returns 400 with body exactly the deal_context error, for every
completion-call outcome (so no completion call is consulted). -/
theorem C5_missing_deal_context (bodyFs : List (String × Json))
    (call : Except String (Option String))
    (hck : truthyGet bodyFs "checkpoint_id" = true ∨
      truthyGet bodyFs "checkpointId" = true)
    (h1 : lookupField bodyFs "deal_context" = none)
    (h2 : lookupField bodyFs "dealContext" = none) :
    analyze (.obj bodyFs) call =
      .ok ⟨400, .obj [("error", .str "deal_context is required")]⟩ := by
  have e1 : (!truthyGet bodyFs "checkpoint_id" &&
      !truthyGet bodyFs "checkpointId") = false := by
    rcases hck with h | h <;> simp [h]
  have d1 := truthyGet_of_not_present bodyFs "deal_context" h1
  have d2 := truthyGet_of_not_present bodyFs "dealContext" h2
  simp [analyze, e1, d1, d2]

/-- Witness for C5: a checkpoint-only body is rejected for the missing
deal context. -/
theorem C5_missing_deal_context_witness :
    analyze (.obj [("checkpoint_id", .str "test-1")]) (.error "auth error") =
      .ok ⟨400, .obj [("error", .str "deal_context is required")]⟩ :=
  C5_missing_deal_context _ _ (Or.inl rfl) rfl rfl

/-- C9: when the completion call raises (network, auth, rate limit —
modelled by the call outcome `.error e`), a request that passed
validation and prompt construction makes the handler re-raise exactly
that exception: the result is the unhandled `apiError e` (the framework
turns it into a generic 500), never an `.ok` response of any status, so
no upstream failure is converted into a 200 or a structured error
body. -/
theorem C9_upstream_failure_propagates (bodyFs : List (String × Json))
    (e : String)
    (h1 : truthyGet bodyFs "checkpoint_id" = true ∨
      truthyGet bodyFs "checkpointId" = true)
    (h2 : truthyGet bodyFs "deal_context" = true ∨
      truthyGet bodyFs "dealContext" = true)
    (hp : ∃ p, buildPrompt (selDealContext bodyFs)
      (getD bodyFs "question" (.str defaultQuestion)) = .ok p) :
    analyze (.obj bodyFs) (.error e) = .error (.apiError e) ∧
    ∀ r : HttpResponse, analyze (.obj bodyFs) (.error e) ≠ .ok r := by
  obtain ⟨p, hp⟩ := hp
  have e1 : (!truthyGet bodyFs "checkpoint_id" &&
      !truthyGet bodyFs "checkpointId") = false := by
    rcases h1 with h | h <;> simp [h]
  have e2 : (!truthyGet bodyFs "deal_context" &&
      !truthyGet bodyFs "dealContext") = false := by
    rcases h2 with h | h <;> simp [h]
  refine ⟨by simp [analyze, e1, e2, hp], fun r => by simp [analyze, e1, e2, hp]⟩

/-- Witness for C9: on the demo request, a rate-limit exception from the
client escapes the handler unchanged. -/
theorem C9_upstream_failure_propagates_witness :
    analyze (.obj demoFields) (.error "rate limited") =
      .error (.apiError "rate limited") ∧
    ∀ r : HttpResponse,
      analyze (.obj demoFields) (.error "rate limited") ≠ .ok r :=
  C9_upstream_failure_propagates demoFields "rate limited"
    (Or.inl rfl) (Or.inl rfl) ⟨_, rfl⟩

/-- C10: a request whose deal context is supplied (under either
spelling) but with a falsy value — in particular the empty object — is
rejected 400 with the deal_context error exactly as if the field were
absent, provided the checkpoint validation passes: presence alone does
not pass validation. Holds for every completion-call outcome. -/
theorem C10_falsy_deal_context (bodyFs : List (String × Json))
    (call : Except String (Option String)) (v : Json)
    (hck : truthyGet bodyFs "checkpoint_id" = true ∨
      truthyGet bodyFs "checkpointId" = true)
    (_hpresent : lookupField bodyFs "deal_context" = some v ∨
      lookupField bodyFs "dealContext" = some v)
    (h1 : truthyGet bodyFs "deal_context" = false)
    (h2 : truthyGet bodyFs "dealContext" = false) :
    analyze (.obj bodyFs) call =
      .ok ⟨400, .obj [("error", .str "deal_context is required")]⟩ := by
  have e1 : (!truthyGet bodyFs "checkpoint_id" &&
      !truthyGet bodyFs "checkpointId") = false := by
    rcases hck with h | h <;> simp [h]
  simp [analyze, e1, h1, h2]

/-- Witness for C10: `deal_context` present as the empty object is
rejected. -/
theorem C10_falsy_deal_context_witness :
    analyze (.obj [("checkpoint_id", .str "test-1"), ("deal_context", .obj [])])
        (.ok (some "irrelevant")) =
      .ok ⟨400, .obj [("error", .str "deal_context is required")]⟩ :=
  C10_falsy_deal_context _ _ (.obj []) (Or.inl rfl) (Or.inl rfl) rfl rfl

set_option maxRecDepth 10000 in
/-- C1 counterexample: the claim says the snake_case `next_steps` value
wins when the model output supplies both spellings, but on a model
output supplying next_steps "snake" and nextSteps "camel" the response
places the camelCase value "camel" (and "camel" is not "snake"): the
code asks for `nextSteps` first. -/
theorem C1_counterexample :
    analyze (.obj demoFields)
        (.ok (some "\x7b\"next_steps\": \"snake\", \"nextSteps\": \"camel\"\x7d")) =
      .ok ⟨200, .obj
        [("risks", .arr []),
         ("next_steps", .str "camel"),
         ("confidence", .num (mkRat 1 2)),
         ("reasoning", .str "Unable to parse response")]⟩ ∧
    Json.str "camel" ≠ Json.str "snake" :=
  ⟨rfl, by simp⟩

/-- C1 amended: when the extracted model output supplies both
`next_steps` and `nextSteps`, the camelCase `nextSteps` value is the one
placed in the response's next_steps field (whatever a `next_steps`
member holds). -/
theorem C1_camel_precedence (p v : Json)
    (h : jsonLookup p "nextSteps" = some v) :
    jsonLookup (normalize p) "next_steps" = some v := by
  rw [normalize_next_steps]
  simp [jsonGetD, h]

/-- Witness for the amended C1 on an output carrying both spellings. -/
theorem C1_camel_precedence_witness :
    jsonLookup
        (normalize (.obj [("next_steps", .str "snake"), ("nextSteps", .str "camel")]))
        "next_steps" = some (.str "camel") :=
  C1_camel_precedence _ _ rfl

set_option maxRecDepth 10000 in
/-- C2 counterexample: the claim says malformed fields are replaced by
defaults so that risks is always a sequence of description/severity
records, but a model output of risks 5 passes the number 5 through to
the response unchanged, which does not match the spec shape of
`AnalysisResponse`. -/
theorem C2_counterexample :
    analyze (.obj demoFields) (.ok (some "\x7b\"risks\": 5\x7d")) =
      .ok ⟨200, .obj
        [("risks", .num 5),
         ("next_steps", .arr []),
         ("confidence", .num (mkRat 1 2)),
         ("reasoning", .str "Unable to parse response")]⟩ ∧
    specAnalysisResponseShape (.obj
        [("risks", .num 5),
         ("next_steps", .arr []),
         ("confidence", .num (mkRat 1 2)),
         ("reasoning", .str "Unable to parse response")]) = false :=
  ⟨rfl, rfl⟩

/-- C2 amended: every success-path response is the normalization of the
extracted model output — a JSON object with exactly the four
`AnalysisResponse` keys in order, in which a field missing from the
extracted output is replaced by its documented default while a field
that is present is passed through unvalidated (so the declared element
shapes are not guaranteed). -/
theorem C2_success_shape (bodyFs : List (String × Json))
    (content : Option String) (p : Json)
    (h1 : truthyGet bodyFs "checkpoint_id" = true ∨
      truthyGet bodyFs "checkpointId" = true)
    (h2 : truthyGet bodyFs "deal_context" = true ∨
      truthyGet bodyFs "dealContext" = true)
    (hp : ∃ q, buildPrompt (selDealContext bodyFs)
      (getD bodyFs "question" (.str defaultQuestion)) = .ok q) :
    analyze (.obj bodyFs) (.ok content) =
      .ok ⟨200, normalize (extract_json (content.getD ""))⟩ ∧
    topKeys (normalize p) = ["risks", "next_steps", "confidence", "reasoning"] ∧
    normalize p = .obj
      [("risks", (jsonLookup p "risks").getD (.arr [])),
       ("next_steps", (jsonLookup p "nextSteps").getD
         ((jsonLookup p "next_steps").getD (.arr []))),
       ("confidence", (jsonLookup p "confidence").getD (.num (mkRat 1 2))),
       ("reasoning", (jsonLookup p "reasoning").getD
         (.str "Unable to parse response"))] :=
  ⟨analyze_ok_path bodyFs content h1 h2 hp, rfl, rfl⟩

/-- Witness for the amended C2 on the demo request with an empty model
output and an empty extracted object. -/
theorem C2_success_shape_witness :
    analyze (.obj demoFields) (.ok (some "")) =
      .ok ⟨200, normalize (extract_json ((some "").getD ""))⟩ ∧
    topKeys (normalize (.obj [])) =
      ["risks", "next_steps", "confidence", "reasoning"] ∧
    normalize (.obj []) = .obj
      [("risks", (jsonLookup (.obj []) "risks").getD (.arr [])),
       ("next_steps", (jsonLookup (.obj []) "nextSteps").getD
         ((jsonLookup (.obj []) "next_steps").getD (.arr []))),
       ("confidence", (jsonLookup (.obj []) "confidence").getD (.num (mkRat 1 2))),
       ("reasoning", (jsonLookup (.obj []) "reasoning").getD
         (.str "Unable to parse response"))] :=
  C2_success_shape demoFields (some "") (.obj [])
    (Or.inl rfl) (Or.inl rfl) ⟨_, rfl⟩

/-- C3: on a valid request, whenever the completion output text has no
span matching the JSON-object pattern, or its matched span fails to
parse as JSON, the handler answers 200 with body exactly the documented
defaults; the extraction (`extract_json`, a total function) raises
nothing past the handler. -/
theorem C3_unparseable_defaults (bodyFs : List (String × Json)) (text : String)
    (h1 : truthyGet bodyFs "checkpoint_id" = true ∨
      truthyGet bodyFs "checkpointId" = true)
    (h2 : truthyGet bodyFs "deal_context" = true ∨
      truthyGet bodyFs "dealContext" = true)
    (hp : ∃ q, buildPrompt (selDealContext bodyFs)
      (getD bodyFs "question" (.str defaultQuestion)) = .ok q)
    (hfail : json_match text.toList = none ∨
      ∃ span, json_match text.toList = some span ∧ json_loads span = none) :
    analyze (.obj bodyFs) (.ok (some text)) =
      .ok ⟨200, .obj
        [("risks", .arr []),
         ("next_steps", .arr []),
         ("confidence", .num (mkRat 1 2)),
         ("reasoning", .str "Unable to parse response")]⟩ := by
  have hx : extract_json text = .obj [] := by
    rcases hfail with h | ⟨span, hm, hl⟩
    · have h' : json_match text.data = none := h
      simp [extract_json, h']
    · have hm' : json_match text.data = some span := hm
      simp [extract_json, hm', hl]
  have hmain := analyze_ok_path bodyFs (some text) h1 h2 hp
  rw [hmain]
  show (Except.ok ⟨200, normalize (extract_json text)⟩ : Except Exn HttpResponse) = _
  rw [hx]
  rfl

/-- Witness for C3: a completion output with no brace-delimited span at
all yields the default body on the demo request. -/
theorem C3_unparseable_defaults_witness :
    analyze (.obj demoFields) (.ok (some "Sorry, I cannot answer that.")) =
      .ok ⟨200, .obj
        [("risks", .arr []),
         ("next_steps", .arr []),
         ("confidence", .num (mkRat 1 2)),
         ("reasoning", .str "Unable to parse response")]⟩ :=
  C3_unparseable_defaults demoFields "Sorry, I cannot answer that."
    (Or.inl rfl) (Or.inl rfl) ⟨_, rfl⟩ (Or.inl rfl)

/-- C6: on a valid request, the fenced completion output of spec
section 8 property 4 — prose prefix, a json code fence, camelCase
`nextSteps`, confidence 0.8 — is extracted and normalized to exactly the
claimed snake_case response body (`mkRat 4 5` is 0.8). -/
theorem C6_fenced_output (bodyFs : List (String × Json))
    (h1 : truthyGet bodyFs "checkpoint_id" = true ∨
      truthyGet bodyFs "checkpointId" = true)
    (h2 : truthyGet bodyFs "deal_context" = true ∨
      truthyGet bodyFs "dealContext" = true)
    (hp : ∃ q, buildPrompt (selDealContext bodyFs)
      (getD bodyFs "question" (.str defaultQuestion)) = .ok q) :
    analyze (.obj bodyFs) (.ok (some fencedOutput)) =
      .ok ⟨200, .obj
        [("risks", .arr
           [.obj [("description", .str "Budget cut"), ("severity", .str "high")]]),
         ("next_steps", .arr
           [.obj [("action", .str "Call CFO"), ("priority", .num 1),
                  ("rationale", .str "Confirm budget")]]),
         ("confidence", .num (mkRat 4 5)),
         ("reasoning", .str "Budget risk.")]⟩ := by
  have hmain := analyze_ok_path bodyFs (some fencedOutput) h1 h2 hp
  rw [hmain]
  set_option maxRecDepth 10000 in rfl

/-- Accumulator form of rendering the pain-point bullets: mapping
`bulletLine` over a list of strings yields one bullet per entry, in
input order. -/
theorem mapM_loop_bullet (pts : List String) (acc : List String) :
    List.mapM.loop bulletLine (pts.map Json.str) acc =
      .ok (acc.reverse ++ pts.map (fun p => "- " ++ p)) := by
  induction pts generalizing acc with
  | nil => simp [List.mapM.loop, pure, Except.pure]
  | cons p ps ih => simp [List.mapM.loop, bulletLine, ih, Bind.bind, Except.bind]

/-- Mapping `bulletLine` over string pain points yields one bullet per
entry, in input order. -/
theorem bulletLines_map (pts : List String) :
    (pts.map Json.str).mapM bulletLine = .ok (pts.map fun p => "- " ++ p) := by
  have h := mapM_loop_bullet pts []
  simpa [List.mapM] using h

/-- Accumulator form of rendering the stakeholder bullets. -/
theorem mapM_loop_stake (sts : List (String × String)) (acc : List String) :
    List.mapM.loop stakeholderLine
        (sts.map fun nr => Json.obj [("name", .str nr.1), ("role", .str nr.2)]) acc =
      .ok (acc.reverse ++ sts.map fun nr => "- " ++ nr.1 ++ " (" ++ nr.2 ++ ")") := by
  induction sts generalizing acc with
  | nil => simp [List.mapM.loop, pure, Except.pure]
  | cons p ps ih =>
    simp [List.mapM.loop, stakeholderLine, getD, lookupField, ih, Bind.bind, Except.bind]

/-- Mapping `stakeholderLine` over name/role records yields one
name-and-role bullet per entry, in input order. -/
theorem stakeholderLines_map (sts : List (String × String)) :
    ((sts.map fun nr => Json.obj [("name", .str nr.1), ("role", .str nr.2)]).mapM
      stakeholderLine) = .ok (sts.map fun nr => "- " ++ nr.1 ++ " (" ++ nr.2 ++ ")") := by
  have h := mapM_loop_stake sts []
  simpa [List.mapM] using h

/-- C7: for every deal context carrying pain points "Manual processes",
"Slow approvals" and the stakeholder Jane/champion (all other fields
arbitrary), the rendered prompt contains the lines "- Manual processes",
"- Slow approvals" and "- Jane (champion)" in that relative order; and
in general the two bulleted blocks render one "- point" line per pain
point and one "- name (role)" line per stakeholder, in input order. -/
theorem C7_prompt_lines (fs : List (String × Json)) (q : Json)
    (pts : List String) (sts : List (String × String))
    (h1 : lookupField fs "pain_points" =
      some (.arr [.str "Manual processes", .str "Slow approvals"]))
    (h2 : lookupField fs "stakeholders" =
      some (.arr [.obj [("name", .str "Jane"), ("role", .str "champion")]])) :
    (∃ pre mid post, buildPrompt (.obj fs) q =
      .ok (pre ++ ("- Manual processes\n- Slow approvals" ++
        (mid ++ ("- Jane (champion)" ++ post))))) ∧
    (pts.map Json.str).mapM bulletLine = .ok (pts.map fun p => "- " ++ p) ∧
    ((sts.map fun nr => Json.obj [("name", .str nr.1), ("role", .str nr.2)]).mapM
      stakeholderLine = .ok (sts.map fun nr => "- " ++ nr.1 ++ " (" ++ nr.2 ++ ")")) := by
  refine ⟨?_, bulletLines_map pts, stakeholderLines_map sts⟩
  have e1 : selPainPoints fs = .arr [.str "Manual processes", .str "Slow approvals"] := by
    simp [selPainPoints, getJ, getD, h1, pyOr, pyTruthy]
  have e2 : getD fs "stakeholders" (.arr []) =
      .arr [.obj [("name", .str "Jane"), ("role", .str "champion")]] := by
    simp [getD, h2]
  have hb : buildPrompt (.obj fs) q =
      .ok ("## Deal: " ++ pyStr (getD fs "company" (.str "Unknown")) ++
        "\nStage: " ++ pyStr (getD fs "stage" (.str "Unknown")) ++
        "\nLast Interaction: " ++ pyStr (selLastInteraction fs) ++
        "\n\nPain Points:\n" ++ "- Manual processes\n- Slow approvals" ++
        "\n\nStakeholders:\n" ++ "- Jane (champion)" ++
        "\n\nHistory: " ++ pyStr (getD fs "history" (.str "N/A")) ++
        "\n\n---\nQuestion: " ++ pyStr q ++
        "\n\nAnalyze this deal and provide your assessment as JSON.") := by
    simp only [buildPrompt]
    rw [e1, e2]
    rfl
  refine ⟨"## Deal: " ++ pyStr (getD fs "company" (.str "Unknown")) ++
        "\nStage: " ++ pyStr (getD fs "stage" (.str "Unknown")) ++
        "\nLast Interaction: " ++ pyStr (selLastInteraction fs) ++
        "\n\nPain Points:\n",
      "\n\nStakeholders:\n",
      "\n\nHistory: " ++ pyStr (getD fs "history" (.str "N/A")) ++
        "\n\n---\nQuestion: " ++ pyStr q ++
        "\n\nAnalyze this deal and provide your assessment as JSON.", ?_⟩
  rw [hb]
  simp only [string_append_assoc]

/-- Witness for C7 on a deal context with exactly the claimed pain
points and stakeholder. -/
theorem C7_prompt_lines_witness :
    (∃ pre mid post, buildPrompt
        (.obj [("pain_points", .arr [.str "Manual processes", .str "Slow approvals"]),
               ("stakeholders", .arr
                 [.obj [("name", .str "Jane"), ("role", .str "champion")]])])
        (.str "What are the top risks?") =
      .ok (pre ++ ("- Manual processes\n- Slow approvals" ++
        (mid ++ ("- Jane (champion)" ++ post))))) ∧
    ([" one ", " two "].map Json.str).mapM bulletLine =
      .ok ([" one ", " two "].map fun p => "- " ++ p) ∧
    (([("Ann", "buyer")].map fun nr =>
        Json.obj [("name", .str nr.1), ("role", .str nr.2)]).mapM
      stakeholderLine =
      .ok ([("Ann", "buyer")].map fun nr => "- " ++ nr.1 ++ " (" ++ nr.2 ++ ")")) :=
  C7_prompt_lines _ _ [" one ", " two "] [("Ann", "buyer")] rfl rfl

/-- C8 counterexample: with both `last_interaction` (empty string) and
`lastInteraction` ("yesterday") present, the value used in prompt
construction is the camelCase one, not the snake_case one: the code
tests truthiness, and a present-but-falsy snake_case value loses. -/
theorem C8_counterexample :
    lookupField [("last_interaction", Json.str ""),
        ("lastInteraction", Json.str "yesterday")] "last_interaction" =
      some (.str "") ∧
    lookupField [("last_interaction", Json.str ""),
        ("lastInteraction", Json.str "yesterday")] "lastInteraction" =
      some (.str "yesterday") ∧
    selLastInteraction [("last_interaction", Json.str ""),
        ("lastInteraction", Json.str "yesterday")] = .str "yesterday" ∧
    Json.str "yesterday" ≠ Json.str "" :=
  ⟨rfl, rfl, rfl, by simp⟩

/-- C8 amended: for each aliased pair (deal_context/dealContext,
last_interaction/lastInteraction, pain_points/painPoints), when both
spellings are present the value used is the snake_case one exactly when
it is truthy; a falsy (empty/null) snake_case value falls through to
the camelCase value. -/
theorem C8_alias_precedence (fs : List (String × Json))
    (v1 w1 v2 w2 v3 w3 : Json)
    (h1 : lookupField fs "deal_context" = some v1)
    (h1c : lookupField fs "dealContext" = some w1)
    (h2 : lookupField fs "last_interaction" = some v2)
    (h2c : lookupField fs "lastInteraction" = some w2)
    (h3 : lookupField fs "pain_points" = some v3)
    (h3c : lookupField fs "painPoints" = some w3) :
    selDealContext fs = (if pyTruthy v1 then v1 else w1) ∧
    selLastInteraction fs = (if pyTruthy v2 then v2 else w2) ∧
    selPainPoints fs = (if pyTruthy v3 then v3 else w3) := by
  refine ⟨?_, ?_, ?_⟩
  · simp [selDealContext, getJ, getD, h1, h1c, pyOr]
  · simp [selLastInteraction, getJ, getD, h2, h2c, pyOr]
  · simp [selPainPoints, getJ, getD, h3, h3c, pyOr]

/-- Witness for the amended C8 on a body carrying all six spellings,
with every snake_case value falsy. -/
theorem C8_alias_precedence_witness :
    selDealContext
        [("deal_context", Json.str ""), ("dealContext", Json.str "dc"),
         ("last_interaction", Json.str ""), ("lastInteraction", Json.str "yesterday"),
         ("pain_points", Json.arr []), ("painPoints", Json.arr [Json.str "x"])] =
      (if pyTruthy (Json.str "") then Json.str "" else Json.str "dc") ∧
    selLastInteraction
        [("deal_context", Json.str ""), ("dealContext", Json.str "dc"),
         ("last_interaction", Json.str ""), ("lastInteraction", Json.str "yesterday"),
         ("pain_points", Json.arr []), ("painPoints", Json.arr [Json.str "x"])] =
      (if pyTruthy (Json.str "") then Json.str "" else Json.str "yesterday") ∧
    selPainPoints
        [("deal_context", Json.str ""), ("dealContext", Json.str "dc"),
         ("last_interaction", Json.str ""), ("lastInteraction", Json.str "yesterday"),
         ("pain_points", Json.arr []), ("painPoints", Json.arr [Json.str "x"])] =
      (if pyTruthy (Json.arr []) then Json.arr [] else Json.arr [Json.str "x"]) :=
  C8_alias_precedence _ _ _ _ _ _ _ rfl rfl rfl rfl rfl rfl

/-- Witness for C6 on the demo request. -/
theorem C6_fenced_output_witness :
    analyze (.obj demoFields) (.ok (some fencedOutput)) =
      .ok ⟨200, .obj
        [("risks", .arr
           [.obj [("description", .str "Budget cut"), ("severity", .str "high")]]),
         ("next_steps", .arr
           [.obj [("action", .str "Call CFO"), ("priority", .num 1),
                  ("rationale", .str "Confirm budget")]]),
         ("confidence", .num (mkRat 4 5)),
         ("reasoning", .str "Budget risk.")]⟩ :=
  C6_fenced_output demoFields (Or.inl rfl) (Or.inl rfl) ⟨_, rfl⟩

end SalesAgent
